import Mathlib

/-!
Shallow embedding of the NAT classification & path-quality probe engine of
the `nwt` repository (the `StunClient` class, final version in
`src/unnamed/part_004`, lines 1417-2709).  Pure computations are translated
directly; the browser event callbacks (`onicecandidate`, `onmessage`,
`onopen`, timers) are modelled as explicit event lists processed in arrival
order.  Machine numbers are `Nat`/`Int`/`ℚ`.
-/

/-! ## JavaScript string primitives used by the source -/

/-- `pat` occurs as a contiguous run inside `l`. -/
def listHasInfix (pat : List Char) : List Char → Bool
  | [] => pat.isPrefixOf []
  | c :: rest => pat.isPrefixOf (c :: rest) || listHasInfix pat rest

/-- JS `s.includes(pat)`: substring containment over the code units. -/
def jsIncludes (s pat : String) : Bool :=
  listHasInfix pat.toList s.toList

/-- JS `s.split(' ')` on a character list: split at every single space,
keeping empty segments. -/
def splitSpaceList : List Char → List (List Char)
  | [] => [[]]
  | c :: rest =>
    let r := splitSpaceList rest
    if c = ' ' then [] :: r
    else
      match r with
      | [] => [[c]]
      | h :: t => (c :: h) :: t

/-- JS `candidate.split(' ')`. -/
def jsSplitSpace (s : String) : List String :=
  (splitSpaceList s.toList).map (fun l => String.mk l)

/-- Value of a decimal digit string (most significant first). -/
def digitsToNat (ds : List Char) : Nat :=
  ds.foldl (fun n c => 10 * n + (c.toNat - 48)) 0

/-- JS `parseInt(s, 10)`: optional sign, then leading decimal digits;
`none` models `NaN`. -/
def jsParseIntDec (s : String) : Option Int :=
  match s.toList with
  | '-' :: rest =>
    let ds := rest.takeWhile Char.isDigit
    if ds.isEmpty then none else some (-(digitsToNat ds : Int))
  | '+' :: rest =>
    let ds := rest.takeWhile Char.isDigit
    if ds.isEmpty then none else some (digitsToNat ds : Int)
  | l =>
    let ds := l.takeWhile Char.isDigit
    if ds.isEmpty then none else some (digitsToNat ds : Int)

/-- `p` is a prefix of `s` (JS `s.startsWith(p)`). -/
def strIsPrefixOf (p s : String) : Bool :=
  p.toList.isPrefixOf s.toList

/-! ## Configuration (`stunServers` roster of the final `StunClient`) -/

structure StunServer where
  url : String
  host : String
  port : Nat
  name : String
  deriving DecidableEq, Repr

/-- The fixed two-server roster configured in the source. -/
def stunServers : List StunServer :=
  [ { url := "stun:stun.miwifi.com:3478", host := "stun.miwifi.com",
      port := 3478, name := "stun.miwifi.com" },
    { url := "stun:stun.l.google.com:19302", host := "stun.l.google.com",
      port := 19302, name := "stun.l.google.com" } ]

/-! ## Rendezvous probe (`getMappedAddress`, lines 2025-2128)

The probe listens to ICE candidate events.  An event is either a candidate
string or the terminal `null` candidate (discovery complete).  Events carry
an arrival offset in milliseconds (nondecreasing); a 5000 ms timer resolves
the promise if it is still pending. -/

structure IpPort where
  ip : String
  port : Int
  deriving DecidableEq, Repr

/-- The four result slots accumulated by `getMappedAddress`. -/
structure MappedAddrs where
  ipv4udp : Option IpPort := none
  ipv4tcp : Option IpPort := none
  ipv6udp : Option IpPort := none
  ipv6tcp : Option IpPort := none
  deriving DecidableEq, Repr

/-- The probe's initial (and no-mapping) result: all four slots `null`. -/
def emptyMappedAddrs : MappedAddrs := {}

/-- `isIPv6` (line 2018): `ip.includes(':')`. -/
def isIPv6 (ip : String) : Bool := jsIncludes ip ":"

/-- Candidate-string test for the UDP srflx branch. -/
def isUdpSrflx (c : String) : Bool :=
  jsIncludes c "typ srflx" && jsIncludes c "UDP" && !(jsIncludes c "TCP")

/-- Candidate-string test for the TCP srflx branch. -/
def isTcpSrflx (c : String) : Bool :=
  jsIncludes c "typ srflx" && jsIncludes c "TCP"

/-- The ip/port extraction both srflx branches perform:
`parts = candidate.split(' ')`, need `parts.length >= 6`, ip = `parts[4]`,
port = `parseInt(parts[5], 10)`, valid iff ip nonempty, port numeric and
positive. -/
def candAddr (candidate : String) : Option IpPort :=
  let parts := jsSplitSpace candidate
  if 6 ≤ parts.length then
    match jsParseIntDec (parts.getD 5 "") with
    | some port =>
      if parts.getD 4 "" ≠ "" ∧ 0 < port then
        some ⟨parts.getD 4 "", port⟩
      else none
    | none => none
  else none

/-- One `onicecandidate` firing with a non-null candidate: records the
parsed address in the slot for its transport and family, overwriting any
earlier value; unmatched or unparsable candidates leave the state unchanged. -/
def applyCandidate (st : MappedAddrs) (c : String) : MappedAddrs :=
  if isUdpSrflx c then
    match candAddr c with
    | some a =>
      if isIPv6 a.ip then { st with ipv6udp := some a }
      else { st with ipv4udp := some a }
    | none => st
  else if isTcpSrflx c then
    match candAddr c with
    | some a =>
      if isIPv6 a.ip then { st with ipv6tcp := some a }
      else { st with ipv4tcp := some a }
    | none => st
  else st

/-- A candidate event is accepted (changes a slot) iff it matches one of the
srflx branches and parses to a valid ip/port. -/
def acceptsCandidate (c : String) : Bool :=
  (isUdpSrflx c || isTcpSrflx c) && (candAddr c).isSome

/-- A discovery event: an ICE candidate string, or the terminal null
candidate. -/
inductive ProbeEvent
  | candidate (c : String)
  | complete
  deriving DecidableEq, Repr

/-- The probe's 5000 ms timeout (line 2060). -/
def probeTimeoutMs : Nat := 5000

/-- Event loop of `getMappedAddress`: events arrive in time order; the
5000 ms timer fires first if the next event would arrive at or after it.
Returns (resolution time, accumulated slots). -/
def getMappedAddressLoop (st : MappedAddrs) :
    List (Nat × ProbeEvent) → Nat × MappedAddrs
  | [] => (probeTimeoutMs, st)
  | (t, e) :: rest =>
    if probeTimeoutMs ≤ t then (probeTimeoutMs, st)
    else
      match e with
      | ProbeEvent.complete => (t, st)
      | ProbeEvent.candidate c => getMappedAddressLoop (applyCandidate st c) rest

/-- `getMappedAddress` run on a trace of timestamped discovery events. -/
def getMappedAddress (events : List (Nat × ProbeEvent)) : Nat × MappedAddrs :=
  getMappedAddressLoop emptyMappedAddrs events

/-! ## NAT classifier (`detectNATTypeFromAddresses`, lines 2134-2180)

The source's category strings correspond to the specification's categories:
`"Full Cone or Restricted Cone"` = EndpointIndependentMapping,
`"Restricted Cone"` = PortRestricted,
`"Symmetric NAT"` = EndpointDependentMapping (Symmetric),
`"Unknown"` = Indeterminate. -/

structure MappedAddr where
  ip : String
  port : Int
  server : String
  deriving DecidableEq, Repr

structure NATTypeResult where
  type : String
  mappedAddresses : List MappedAddr
  deriving DecidableEq, Repr

/-- `detectNATTypeFromAddresses` (the `protocol`/`ipVersion` arguments only
affect logging and are omitted).  `numServers` is `this.stunServers.length`. -/
def detectNATTypeFromAddresses (numServers : Nat)
    (addresses : List MappedAddr) : Option NATTypeResult :=
  match addresses.head? with
  | none => none
  | some a0 =>
    let allSameIP := addresses.all (fun addr => addr.ip == a0.ip)
    if !allSameIP then
      some ⟨"Unknown", addresses⟩
    else
      let allSamePort := addresses.all (fun addr => addr.port == a0.port)
      let natType :=
        if allSamePort then
          if addresses.length == numServers then
            "Full Cone or Restricted Cone"
          else
            "Restricted Cone"
        else "Symmetric NAT"
      some ⟨natType, addresses⟩

/-! ## Public-reachability detection (`detectPublicIP`, lines 1812-1914)

The probe opens a session against the first configured server only, watches
candidate events, and resolves on the first UDP srflx candidate with the
negation of an ad hoc substring blacklist applied to the WHOLE candidate
string; the terminal null candidate and the 5000 ms timeout resolve `false`. -/

/-- The source's `isPrivateIP` substring blacklist (lines 1862-1888),
evaluated on the entire candidate string via `String.includes`. -/
def isPrivateIPSubstrCheck (candidate : String) : Bool :=
  jsIncludes candidate "192.168." ||
  jsIncludes candidate "10." ||
  jsIncludes candidate "172.16." ||
  jsIncludes candidate "172.17." ||
  jsIncludes candidate "172.18." ||
  jsIncludes candidate "172.19." ||
  jsIncludes candidate "172.20." ||
  jsIncludes candidate "172.21." ||
  jsIncludes candidate "172.22." ||
  jsIncludes candidate "172.23." ||
  jsIncludes candidate "172.24." ||
  jsIncludes candidate "172.25." ||
  jsIncludes candidate "172.26." ||
  jsIncludes candidate "172.27." ||
  jsIncludes candidate "172.28." ||
  jsIncludes candidate "172.29." ||
  jsIncludes candidate "172.30." ||
  jsIncludes candidate "172.31." ||
  jsIncludes candidate "169.254." ||
  jsIncludes candidate "127.0.0.1" ||
  jsIncludes candidate "::1" ||
  jsIncludes candidate "fc00:" ||
  jsIncludes candidate "fd00:" ||
  jsIncludes candidate "fe80:" ||
  jsIncludes candidate ".local" ||
  jsIncludes candidate "localhost" ||
  jsIncludes candidate "0.0.0.0" ||
  jsIncludes candidate "255.255.255.255"

/-- Event loop of `detectPublicIP`: the first UDP srflx candidate decides
(`finish(!isPrivateIP)`); TCP srflx and other candidates are skipped; the
null candidate resolves `false`; list exhaustion models the timeout
(`false`). -/
def detectPublicIPLoop : List ProbeEvent → Bool
  | [] => false
  | ProbeEvent.complete :: _ => false
  | ProbeEvent.candidate c :: rest =>
    if isUdpSrflx c then !(isPrivateIPSubstrCheck c)
    else detectPublicIPLoop rest

/-- `detectPublicIP` over a per-server assignment of event traces: uses only
`servers[0]` (the primary, first-configured server); returns `false` when
the roster is empty. -/
def detectPublicIP (servers : List StunServer)
    (eventsOf : String → List ProbeEvent) : Bool :=
  match servers with
  | [] => false
  | s :: _ => detectPublicIPLoop (eventsOf s.name)

/-- Specification-side notion of a private address, following the claim's
words (a prefix/range check on the mapped IP itself): private-range
(10/8, 172.16/12, 192.168/16, IPv6 unique-local fc00::/7), loopback
(127/8, ::1), link-local (169.254/16, fe80::/10), or broadcast.  Used only
to compare the code's candidate-string blacklist against the spec's intent. -/
def specIsPrivateAddr (ip : String) : Bool :=
  strIsPrefixOf "10." ip || strIsPrefixOf "192.168." ip ||
  strIsPrefixOf "172.16." ip || strIsPrefixOf "172.17." ip ||
  strIsPrefixOf "172.18." ip || strIsPrefixOf "172.19." ip ||
  strIsPrefixOf "172.20." ip || strIsPrefixOf "172.21." ip ||
  strIsPrefixOf "172.22." ip || strIsPrefixOf "172.23." ip ||
  strIsPrefixOf "172.24." ip || strIsPrefixOf "172.25." ip ||
  strIsPrefixOf "172.26." ip || strIsPrefixOf "172.27." ip ||
  strIsPrefixOf "172.28." ip || strIsPrefixOf "172.29." ip ||
  strIsPrefixOf "172.30." ip || strIsPrefixOf "172.31." ip ||
  strIsPrefixOf "fc" ip || strIsPrefixOf "fd" ip ||
  strIsPrefixOf "127." ip || ip == "::1" ||
  strIsPrefixOf "169.254." ip || strIsPrefixOf "fe80:" ip ||
  ip == "255.255.255.255"

/-! ## Server reachability and the overall network-type decision
(`testStunServer` line 1803, `detectNetworkType` lines 1489-1560) -/

/-- Outcome of `testStunServerConnection` for one server. -/
structure ConnResult where
  udp : Bool
  tcp : Bool
  deriving DecidableEq, Repr

/-- `testStunServer`: a server is reachable iff UDP or TCP succeeded. -/
def testStunServer (r : ConnResult) : Bool := r.udp || r.tcp

/-- `formatNATType` (lines 1687-1702). -/
def formatNATType (natType : String) : String :=
  if natType == "Full Cone or Restricted Cone" then "全锥型/受限锥型NAT"
  else if natType == "Restricted Cone" then "受限锥型NAT"
  else if natType == "Symmetric NAT" then "对称型NAT（可STUN，但P2P困难）"
  else if natType == "Port Restricted" then "端口受限型NAT"
  else if natType == "Unknown" then "受限网络（可STUN通信）"
  else "受限网络（可STUN通信）"

/-- JS truthiness of `x?.type`: `undefined` and the empty string are falsy. -/
def jsTruthyStr (o : Option String) : Option String :=
  match o with
  | none => none
  | some s => if s == "" then none else some s

/-- `udpNatType = ipv4UdpResult?.type || ipv6UdpResult?.type || 'Unknown'`. -/
def udpNatTypeOf (r4 r6 : Option NATTypeResult) : String :=
  ((jsTruthyStr (r4.map NATTypeResult.type)).or
    (jsTruthyStr (r6.map NATTypeResult.type))).getD "Unknown"

/-- `tcpNatType = ipv4TcpResult?.type || ipv6TcpResult?.type || null`. -/
def tcpNatTypeOf (r4 r6 : Option NATTypeResult) : Option String :=
  (jsTruthyStr (r4.map NATTypeResult.type)).or
    (jsTruthyStr (r6.map NATTypeResult.type))

/-- Step 6 of `detectNetworkType` (lines 1521-1550): the overall
network-type label.  `"防火墙阻断网络"` is the "Firewalled/Blocked" label,
`"公网型网络"` the "Open/Public" label. -/
def decideNetworkTypeLabel (reachableCount : Nat) (hasPublicIP : Bool)
    (udpNatType : String) (tcpNatType : Option String) : String :=
  if reachableCount == 0 then "防火墙阻断网络"
  else if hasPublicIP && udpNatType == "Unknown" && tcpNatType == none then
    "公网型网络"
  else
    let udpType := formatNATType udpNatType
    match tcpNatType.map formatNATType with
    | some tcpType =>
      if udpType ≠ tcpType then "UDP " ++ udpType ++ "，TCP " ++ tcpType
      else tcpType ++ "（TCP/UDP）"
    | none => udpType ++ "（仅UDP检测）"

/-- `detectNetworkType`'s network-type computation: reachability filtering
(`testStunServers`) composed with the decision of step 6.  `reachResults`
are the per-server `testStunServer` inputs; the NAT detection results are
passed through the version-4 fallback chains. -/
def detectNetworkTypeLabel (reachResults : List ConnResult)
    (hasPublicIP : Bool) (ipv4Udp ipv4Tcp ipv6Udp ipv6Tcp : Option NATTypeResult) :
    String :=
  decideNetworkTypeLabel (reachResults.filter testStunServer).length hasPublicIP
    (udpNatTypeOf ipv4Udp ipv6Udp) (tcpNatTypeOf ipv4Tcp ipv6Tcp)

/-! ## Path-quality measurement (`performSpeedTest`, lines 2445-2704)

The two peer connections and their data channels are modelled as a state
machine driven by a schedule of events: the channel-open callback, interval
ticks that send one 1024-byte packet each (only while the channel is open;
a failed `send` does not count), deliveries of sent packets at the
responder (which record a latency sample and echo), and deliveries of
echoed packets back at the sender (which record a latency sample).  The
guards `received < sent` and `echoed < received` are the channel-causality
facts: a reliable data channel cannot deliver more messages than were sent.
Wall-clock quantities (`connectionTime`) are not modelled; latency samples
are carried by the delivery events. -/

inductive SpeedEvent
  | chanOpen
  | sendTick (ok : Bool)
  | deliver (lat : ℚ)
  | echoDeliver (lat : ℚ)

/-- Mutable test state: `connectionEstablished`, `packets.sent`,
`packets.received`, the echo count, `totalBytesReceived`, `latencies`. -/
structure SpeedState where
  opened : Bool := false
  sent : Nat := 0
  received : Nat := 0
  echoed : Nat := 0
  bytesReceived : Nat := 0
  latencies : List ℚ := []

def speedStep (s : SpeedState) : SpeedEvent → SpeedState
  | SpeedEvent.chanOpen => { s with opened := true }
  | SpeedEvent.sendTick ok =>
    if s.opened && ok then { s with sent := s.sent + 1 } else s
  | SpeedEvent.deliver lat =>
    if s.received < s.sent then
      { s with received := s.received + 1,
               bytesReceived := s.bytesReceived + 1024,
               latencies := s.latencies ++ [lat] }
    else s
  | SpeedEvent.echoDeliver lat =>
    if s.echoed < s.received then
      { s with echoed := s.echoed + 1,
               bytesReceived := s.bytesReceived + 1024,
               latencies := s.latencies ++ [lat] }
    else s

def runSpeedTest (events : List SpeedEvent) : SpeedState :=
  events.foldl speedStep {}

/-- `testDuration` (line 2462): 4000 ms. -/
def testDurationMs : Nat := 4000

/-- JS `Math.round(x * 100) / 100`. -/
def jsRound2 (q : ℚ) : ℚ := (round (q * 100) : ℤ) / 100

/-- The raw `packetLoss` computed in the timeout callback (lines 2682-2684):
`(sent - received) / sent * 100` when anything was sent, else `100`. -/
def speedRawPacketLoss (s : SpeedState) : ℚ :=
  if 0 < s.sent then (((s.sent : ℚ) - (s.received : ℚ)) / (s.sent : ℚ)) * 100
  else 100

structure SpeedTestResult where
  latency : ℤ
  throughput : ℚ
  packetLoss : ℚ
  status : String
  packetsSent : Nat
  packetsReceived : Nat
  deriving DecidableEq, Repr

/-- The result assembled by the timeout callback (lines 2674-2703). -/
def speedResult (s : SpeedState) : SpeedTestResult :=
  let avgLatency : ℚ :=
    if 0 < s.latencies.length then s.latencies.sum / (s.latencies.length : ℚ)
    else 0
  let throughput : ℚ :=
    if 0 < s.bytesReceived then
      ((s.bytesReceived : ℚ) / 1024) / ((testDurationMs : ℚ) / 1000)
    else 0
  { latency := round avgLatency
    throughput := jsRound2 throughput
    packetLoss := jsRound2 (speedRawPacketLoss s)
    status := if s.opened then "success" else "failed"
    packetsSent := s.sent
    packetsReceived := s.received }

/-- `performSpeedTest` outcome for a run that reaches the timeout callback. -/
def performSpeedTest (events : List SpeedEvent) : SpeedTestResult :=
  speedResult (runSpeedTest events)

/-- The result of the connection-failure path (lines 2655-2663). -/
def speedTestFailureResult : SpeedTestResult :=
  { latency := 0, throughput := 0, packetLoss := 100,
    status := "failed", packetsSent := 0, packetsReceived := 0 }

/-! ## Helper lemmas -/

theorem all_ip_eq_head {a : MappedAddr} {rest : List MappedAddr}
    (hip : ∀ b ∈ rest, b.ip = a.ip) :
    ((a :: rest).all (fun addr => addr.ip == a.ip)) = true := by
  simp only [List.all_cons, beq_self_eq_true, Bool.true_and, List.all_eq_true,
    beq_iff_eq]
  exact hip

theorem all_port_eq_head {a : MappedAddr} {rest : List MappedAddr}
    (hport : ∀ b ∈ rest, b.port = a.port) :
    ((a :: rest).all (fun addr => addr.port == a.port)) = true := by
  simp only [List.all_cons, beq_self_eq_true, Bool.true_and, List.all_eq_true,
    beq_iff_eq]
  exact hport

/-! ## Claim C1 -/

/-- Claim C1: for every non-empty mapping set (one transport and family) in
which all addresses share one IP and one port, `detectNATTypeFromAddresses`
returns `"Full Cone or Restricted Cone"` (the spec's
EndpointIndependentMapping) when as many mappings as configured servers were
produced, and the tighter `"Restricted Cone"` (the spec's PortRestricted)
otherwise; it never returns `"Symmetric NAT"` (EndpointDependentMapping)
for such a set. -/
theorem C1_same_ip_same_port_classification (numServers : Nat)
    (a : MappedAddr) (rest : List MappedAddr)
    (hip : ∀ b ∈ rest, b.ip = a.ip) (hport : ∀ b ∈ rest, b.port = a.port) :
    detectNATTypeFromAddresses numServers (a :: rest) =
      some ⟨if (a :: rest).length = numServers then "Full Cone or Restricted Cone"
            else "Restricted Cone", a :: rest⟩ ∧
    ∀ r, detectNATTypeFromAddresses numServers (a :: rest) = some r →
      r.type ≠ "Symmetric NAT" := by
  have h1 := all_ip_eq_head hip
  have h2 := all_port_eq_head hport
  have hmain : detectNATTypeFromAddresses numServers (a :: rest) =
      some ⟨if (a :: rest).length = numServers then "Full Cone or Restricted Cone"
            else "Restricted Cone", a :: rest⟩ := by
    by_cases hn : (a :: rest).length = numServers
    · simp [detectNATTypeFromAddresses, h1, h2, hn]
    · simp [detectNATTypeFromAddresses, h1, h2, hn]
  refine ⟨hmain, ?_⟩
  intro r hr
  rw [hmain] at hr
  cases hr
  split <;> simp

/-- Witness for C1: both configured servers reported 203.0.113.5:40000 and
the classification is EndpointIndependentMapping; dropping one server's
mapping (with two servers configured) gives PortRestricted instead. -/
theorem C1_same_ip_same_port_classification_witness :
    (detectNATTypeFromAddresses 2
        [⟨"203.0.113.5", 40000, "stun.miwifi.com"⟩,
         ⟨"203.0.113.5", 40000, "stun.l.google.com"⟩] =
      some ⟨"Full Cone or Restricted Cone",
        [⟨"203.0.113.5", 40000, "stun.miwifi.com"⟩,
         ⟨"203.0.113.5", 40000, "stun.l.google.com"⟩]⟩) ∧
    ∀ r, detectNATTypeFromAddresses 2
        [⟨"203.0.113.5", 40000, "stun.miwifi.com"⟩,
         ⟨"203.0.113.5", 40000, "stun.l.google.com"⟩] = some r →
      r.type ≠ "Symmetric NAT" := by
  have h := C1_same_ip_same_port_classification 2
    ⟨"203.0.113.5", 40000, "stun.miwifi.com"⟩
    [⟨"203.0.113.5", 40000, "stun.l.google.com"⟩]
    (by decide) (by decide)
  simpa using h

/-! ## Claim C2 -/

/-- Claim C2: any mapping set sharing one IP but containing two distinct
ports classifies as `"Symmetric NAT"` (the spec's EndpointDependentMapping). -/
theorem C2_same_ip_distinct_ports_symmetric (numServers : Nat)
    (addrs : List MappedAddr) (x y : MappedAddr)
    (hx : x ∈ addrs) (hy : y ∈ addrs)
    (hip : ∀ b ∈ addrs, b.ip = x.ip)
    (hp : x.port ≠ y.port) :
    detectNATTypeFromAddresses numServers addrs = some ⟨"Symmetric NAT", addrs⟩ := by
  cases addrs with
  | nil => cases hx
  | cons a rest =>
    have ha : a.ip = x.ip := hip a (List.mem_cons_self a rest)
    have h1 : ((a :: rest).all (fun addr => addr.ip == a.ip)) = true := by
      simp only [List.all_eq_true, beq_iff_eq]
      intro b hb
      rw [hip b hb, ha]
    have h2 : ((a :: rest).all (fun addr => addr.port == a.port)) = false := by
      rw [← Bool.not_eq_true, List.all_eq_true]
      intro hall
      have hxp := hall x hx
      have hyp := hall y hy
      rw [beq_iff_eq] at hxp hyp
      exact hp (hxp.trans hyp.symm)
    simp [detectNATTypeFromAddresses, h1, h2]

/-- Witness for C2, the spec's Scenario B: 203.0.113.5:40000 from one server
and 203.0.113.5:51000 from the other classify as EndpointDependentMapping. -/
theorem C2_same_ip_distinct_ports_symmetric_witness :
    detectNATTypeFromAddresses 2
        [⟨"203.0.113.5", 40000, "stun.miwifi.com"⟩,
         ⟨"203.0.113.5", 51000, "stun.l.google.com"⟩] =
      some ⟨"Symmetric NAT",
        [⟨"203.0.113.5", 40000, "stun.miwifi.com"⟩,
         ⟨"203.0.113.5", 51000, "stun.l.google.com"⟩]⟩ :=
  C2_same_ip_distinct_ports_symmetric 2 _
    ⟨"203.0.113.5", 40000, "stun.miwifi.com"⟩
    ⟨"203.0.113.5", 51000, "stun.l.google.com"⟩
    (by decide) (by decide) (by decide) (by decide)

/-! ## Claim C3 -/

/-- Counterexample to C3: with the configured roster (two servers), a set
holding exactly one server's mapping classifies as `"Restricted Cone"`
(PortRestricted), not `"Full Cone or Restricted Cone"`
(EndpointIndependentMapping) as the claim states. -/
theorem C3_single_mapping_counterexample :
    detectNATTypeFromAddresses stunServers.length
        [⟨"203.0.113.5", 40000, "stun.miwifi.com"⟩] =
      some ⟨"Restricted Cone", [⟨"203.0.113.5", 40000, "stun.miwifi.com"⟩]⟩ ∧
    ("Restricted Cone" : String) ≠ "Full Cone or Restricted Cone" := by
  constructor
  · decide
  · decide

/-- C3 amended: with exactly one mapping, the classification's evidence is
that one mapping, and the category is EndpointIndependentMapping
(`"Full Cone or Restricted Cone"`) only when exactly one server is
configured; with more configured servers it is PortRestricted
(`"Restricted Cone"`). -/
theorem C3_single_mapping_classification (numServers : Nat) (a : MappedAddr) :
    detectNATTypeFromAddresses numServers [a] =
      some ⟨if numServers = 1 then "Full Cone or Restricted Cone"
            else "Restricted Cone", [a]⟩ := by
  rcases eq_or_ne numServers 1 with h | h
  · subst h
    simp [detectNATTypeFromAddresses]
  · simp [detectNATTypeFromAddresses, h, Ne.symm h]

/-! ## Speed-test helper lemmas -/

theorem speedStep_received_le_sent (s : SpeedState) (e : SpeedEvent)
    (h : s.received ≤ s.sent) :
    (speedStep s e).received ≤ (speedStep s e).sent := by
  cases e with
  | chanOpen => exact h
  | sendTick ok =>
    simp only [speedStep]
    split
    · exact Nat.le_succ_of_le h
    · exact h
  | deliver lat =>
    simp only [speedStep]
    split
    · next hlt => exact hlt
    · exact h
  | echoDeliver lat =>
    simp only [speedStep]
    split
    · exact h
    · exact h

theorem foldl_speedStep_received_le_sent (events : List SpeedEvent)
    (s : SpeedState) (h : s.received ≤ s.sent) :
    (events.foldl speedStep s).received ≤ (events.foldl speedStep s).sent := by
  induction events generalizing s with
  | nil => exact h
  | cons e rest ih =>
    exact ih (speedStep s e) (speedStep_received_le_sent s e h)

theorem runSpeedTest_received_le_sent (events : List SpeedEvent) :
    (runSpeedTest events).received ≤ (runSpeedTest events).sent :=
  foldl_speedStep_received_le_sent events {} (Nat.le_refl 0)

theorem speedRawPacketLoss_bounds (s : SpeedState) (h : s.received ≤ s.sent) :
    0 ≤ speedRawPacketLoss s ∧ speedRawPacketLoss s ≤ 100 := by
  unfold speedRawPacketLoss
  split
  case isTrue hpos =>
    have hs : (0 : ℚ) < (s.sent : ℚ) := by exact_mod_cast hpos
    have hr : (s.received : ℚ) ≤ (s.sent : ℚ) := by exact_mod_cast h
    have hr0 : (0 : ℚ) ≤ (s.received : ℚ) := by positivity
    constructor
    · apply mul_nonneg (div_nonneg (by linarith) (le_of_lt hs)) (by norm_num)
    · have h1 : ((s.sent : ℚ) - (s.received : ℚ)) / (s.sent : ℚ) ≤ 1 := by
        rw [div_le_one hs]
        linarith
      have h2 := mul_le_mul_of_nonneg_right h1 (show (0:ℚ) ≤ 100 by norm_num)
      linarith
  case isFalse => norm_num

theorem jsRound2_bounds (q : ℚ) (h0 : 0 ≤ q) (h1 : q ≤ 100) :
    0 ≤ jsRound2 q ∧ jsRound2 q ≤ 100 := by
  unfold jsRound2
  have hl : (0 : ℤ) ≤ round (q * 100) := by
    rw [round_eq]
    apply Int.le_floor.mpr
    push_cast
    nlinarith
  have hu : round (q * 100) ≤ (10000 : ℤ) := by
    rw [round_eq]
    have hle : q * 100 + 1 / 2 ≤ 10000 + 1 / 2 := by nlinarith
    have hm := Int.floor_mono hle
    have h2 : ⌊(10000 : ℚ) + 1 / 2⌋ = 10000 := by
      apply Int.floor_eq_iff.mpr
      constructor <;> norm_num
    rw [h2] at hm
    exact hm
  have hlq : (0 : ℚ) ≤ ((round (q * 100) : ℤ) : ℚ) := by exact_mod_cast hl
  have huq : ((round (q * 100) : ℤ) : ℚ) ≤ 10000 := by exact_mod_cast hu
  constructor
  · exact div_nonneg hlq (by norm_num)
  · rw [div_le_iff₀ (show (0:ℚ) < 100 by norm_num)]
    linarith

theorem speedResult_packetLoss (s : SpeedState) :
    (speedResult s).packetLoss = jsRound2 (speedRawPacketLoss s) := rfl

theorem speedResult_packetsSent (s : SpeedState) :
    (speedResult s).packetsSent = s.sent := rfl

theorem speedResult_packetsReceived (s : SpeedState) :
    (speedResult s).packetsReceived = s.received := rfl

/-! ## Claim C4 -/

/-- Claim C4: in every result `performSpeedTest` can produce — under any
schedule of channel opens, interval sends, deliveries, echoes, and the
timeout firing, and also on the connection-failure path —
`packetsReceived ≤ packetsSent` and `packetLoss ∈ [0, 100]`. -/
theorem C4_speed_result_invariants (events : List SpeedEvent) :
    ((performSpeedTest events).packetsReceived ≤ (performSpeedTest events).packetsSent ∧
      0 ≤ (performSpeedTest events).packetLoss ∧
      (performSpeedTest events).packetLoss ≤ 100) ∧
    (speedTestFailureResult.packetsReceived ≤ speedTestFailureResult.packetsSent ∧
      0 ≤ speedTestFailureResult.packetLoss ∧
      speedTestFailureResult.packetLoss ≤ 100) := by
  have hinv := runSpeedTest_received_le_sent events
  have hraw := speedRawPacketLoss_bounds (runSpeedTest events) hinv
  have hrnd := jsRound2_bounds _ hraw.1 hraw.2
  refine ⟨⟨?_, ?_, ?_⟩, by norm_num [speedTestFailureResult]⟩
  · rw [performSpeedTest, speedResult_packetsReceived, speedResult_packetsSent]
    exact hinv
  · rw [performSpeedTest, speedResult_packetLoss]
    exact hrnd.1
  · rw [performSpeedTest, speedResult_packetLoss]
    exact hrnd.2

/-! ## Claim C5 -/

/-- Scenario E of the spec: the channel opens, 80 interval sends succeed
within the 4000 ms window (50 ms cadence), and 76 echoes come back. -/
def speedScenarioE : List SpeedEvent :=
  SpeedEvent.chanOpen ::
    (List.replicate 80 (SpeedEvent.sendTick true) ++
     List.replicate 76 (SpeedEvent.deliver 0))

set_option maxRecDepth 40000 in
/-- Claim C5: the raw packet loss is `(sent - received) / sent * 100` when
anything was sent (stated multiplicatively) and `100` when nothing was
sent; in Scenario E (80 sent, 76 received) the reported `packetLoss` is
`5` and the outcome is `"success"` (Established). -/
theorem C5_packet_loss_formula (events : List SpeedEvent) :
    ((runSpeedTest events).sent = 0 →
      speedRawPacketLoss (runSpeedTest events) = 100) ∧
    (0 < (runSpeedTest events).sent →
      speedRawPacketLoss (runSpeedTest events) * ((runSpeedTest events).sent : ℚ) =
        (((runSpeedTest events).sent : ℚ) - ((runSpeedTest events).received : ℚ)) * 100) ∧
    (performSpeedTest speedScenarioE).packetsSent = 80 ∧
    (performSpeedTest speedScenarioE).packetsReceived = 76 ∧
    (performSpeedTest speedScenarioE).packetLoss = 5 ∧
    (performSpeedTest speedScenarioE).status = "success" := by
  have hfs : (runSpeedTest speedScenarioE).sent = 80 := by decide
  have hfr : (runSpeedTest speedScenarioE).received = 76 := by decide
  have hraw : speedRawPacketLoss (runSpeedTest speedScenarioE) = 5 := by
    rw [speedRawPacketLoss, hfs, hfr]
    norm_num
  have h5 : (performSpeedTest speedScenarioE).packetLoss = 5 := by
    rw [performSpeedTest, speedResult_packetLoss, jsRound2, hraw]
    rw [show ((5 : ℚ) * 100) = 500 by norm_num, round_ofNat]
    norm_num
  refine ⟨?_, ?_, by decide, by decide, h5, by decide⟩
  · intro h
    simp [speedRawPacketLoss, h]
  · intro h
    have hs : ((runSpeedTest events).sent : ℚ) ≠ 0 :=
      ne_of_gt (by exact_mod_cast h)
    rw [speedRawPacketLoss, if_pos h]
    field_simp

/-- Witness for C5 at Scenario E: nothing was sent in the empty schedule, so
the raw loss is 100%. -/
theorem C5_packet_loss_formula_witness :
    speedRawPacketLoss (runSpeedTest []) = 100 ∧
    (performSpeedTest speedScenarioE).packetLoss = 5 :=
  ⟨(C5_packet_loss_formula []).1 (by decide),
   (C5_packet_loss_formula []).2.2.2.2.1⟩

/-! ## Claim C6 -/

/-- Claim C6: when zero rendezvous servers are reachable — a server counts
as reachable when either transport's test succeeded (`testStunServer`) —
`detectNetworkType` reports `"防火墙阻断网络"` ("Firewalled/Blocked"),
whatever the public-IP flag and all four NAT detection results are. -/
theorem C6_no_reachable_servers_firewalled (reachResults : List ConnResult)
    (hasPublicIP : Bool) (ipv4Udp ipv4Tcp ipv6Udp ipv6Tcp : Option NATTypeResult)
    (h : ∀ r ∈ reachResults, r.udp = false ∧ r.tcp = false) :
    detectNetworkTypeLabel reachResults hasPublicIP ipv4Udp ipv4Tcp ipv6Udp ipv6Tcp =
      "防火墙阻断网络" := by
  have hfilter : reachResults.filter testStunServer = [] := by
    rw [List.filter_eq_nil_iff]
    intro r hr
    have := h r hr
    simp [testStunServer, this.1, this.2]
  rw [detectNetworkTypeLabel, hfilter]
  rfl

/-- Witness for C6, the spec's Scenario C: both servers fail both
transports, and even with a public IP observed and NAT evidence present the
label is "Firewalled/Blocked". -/
theorem C6_no_reachable_servers_firewalled_witness :
    detectNetworkTypeLabel [⟨false, false⟩, ⟨false, false⟩] true
        (some ⟨"Symmetric NAT", []⟩) (some ⟨"Restricted Cone", []⟩)
        none none = "防火墙阻断网络" :=
  C6_no_reachable_servers_firewalled [⟨false, false⟩, ⟨false, false⟩] true
    (some ⟨"Symmetric NAT", []⟩) (some ⟨"Restricted Cone", []⟩) none none
    (by decide)

/-! ## Claim C7 -/

/-- A UDP srflx candidate string carrying 203.0.113.5:40000. -/
def candFirst : String := "candidate:1 1 UDP 99 203.0.113.5 40000 typ srflx"

/-- A later UDP srflx candidate string carrying 203.0.113.5:51000. -/
def candSecond : String := "candidate:1 1 UDP 99 203.0.113.5 51000 typ srflx"

/-- Counterexample to C7: the probe does not finish at its first matching
externally-mapped event.  With the first matching candidate alone the
result slot holds 203.0.113.5:40000, but a second matching event arriving
afterwards changes the result to 203.0.113.5:51000, and the probe resolves
only at the discovery-complete event (time 20), not at the first match. -/
theorem C7_first_match_counterexample :
    (getMappedAddress [(0, ProbeEvent.candidate candFirst),
        (20, ProbeEvent.complete)]).2.ipv4udp = some ⟨"203.0.113.5", 40000⟩ ∧
    (getMappedAddress [(0, ProbeEvent.candidate candFirst),
        (10, ProbeEvent.candidate candSecond),
        (20, ProbeEvent.complete)]).2.ipv4udp = some ⟨"203.0.113.5", 51000⟩ ∧
    (getMappedAddress [(0, ProbeEvent.candidate candFirst),
        (10, ProbeEvent.candidate candSecond),
        (20, ProbeEvent.complete)]).1 = 20 := by
  refine ⟨by decide, by decide, by decide⟩

/-- Folding one discovery event into the probe state (candidates update
slots, the terminal event does not). -/
def applyProbeEvent (st : MappedAddrs) (q : Nat × ProbeEvent) : MappedAddrs :=
  match q.2 with
  | ProbeEvent.candidate c => applyCandidate st c
  | ProbeEvent.complete => st

theorem getMappedAddressLoop_append (st : MappedAddrs)
    (pre post : List (Nat × ProbeEvent))
    (h : ∀ q ∈ pre, q.1 < probeTimeoutMs ∧ q.2 ≠ ProbeEvent.complete) :
    getMappedAddressLoop st (pre ++ post) =
      getMappedAddressLoop (pre.foldl applyProbeEvent st) post := by
  induction pre generalizing st with
  | nil => rfl
  | cons q rest ih =>
    obtain ⟨ht, hc⟩ := h q (List.mem_cons_self q rest)
    obtain ⟨t, e⟩ := q
    cases e with
    | complete => exact absurd rfl hc
    | candidate c =>
      simp only [List.cons_append, getMappedAddressLoop, if_neg (Nat.not_le.mpr ht),
        List.foldl_cons]
      exact ih (applyCandidate st c) (fun q hq => h q (List.mem_cons_of_mem _ hq))

/-- C7 amended: the probe accumulates matching events rather than finishing
on the first one.  Whatever matching events came before, a later matching
UDP/IPv4 event (before the timeout) overwrites the IPv4-UDP slot, and the
probe resolves at the discovery-complete event's time with that last value. -/
theorem C7_last_match_wins (pre : List (Nat × ProbeEvent)) (t tf : Nat)
    (c ip : String) (p : Int)
    (hpre : ∀ q ∈ pre, q.1 < probeTimeoutMs ∧ q.2 ≠ ProbeEvent.complete)
    (ht : t < probeTimeoutMs) (htf : tf < probeTimeoutMs)
    (hudp : isUdpSrflx c = true) (haddr : candAddr c = some ⟨ip, p⟩)
    (hv4 : isIPv6 ip = false) :
    (getMappedAddress (pre ++ [(t, ProbeEvent.candidate c),
        (tf, ProbeEvent.complete)])).1 = tf ∧
    (getMappedAddress (pre ++ [(t, ProbeEvent.candidate c),
        (tf, ProbeEvent.complete)])).2.ipv4udp = some ⟨ip, p⟩ := by
  rw [getMappedAddress, getMappedAddressLoop_append _ _ _ hpre]
  simp only [getMappedAddressLoop, if_neg (Nat.not_le.mpr ht),
    if_neg (Nat.not_le.mpr htf)]
  simp [applyCandidate, hudp, haddr, hv4]

/-- Witness for C7 amended: after an accepted 40000-port event, a later
51000-port event determines the slot and the probe resolves at the
complete event. -/
theorem C7_last_match_wins_witness :
    (getMappedAddress ([(0, ProbeEvent.candidate candFirst)] ++
        [(10, ProbeEvent.candidate candSecond), (20, ProbeEvent.complete)])).1 = 20 ∧
    (getMappedAddress ([(0, ProbeEvent.candidate candFirst)] ++
        [(10, ProbeEvent.candidate candSecond),
         (20, ProbeEvent.complete)])).2.ipv4udp = some ⟨"203.0.113.5", 51000⟩ :=
  C7_last_match_wins [(0, ProbeEvent.candidate candFirst)] 10 20 candSecond
    "203.0.113.5" 51000 (by decide) (by decide) (by decide) (by decide)
    (by decide) (by decide)

/-! ## Claim C8 -/

theorem getMappedAddressLoop_fst_le (st : MappedAddrs)
    (events : List (Nat × ProbeEvent)) :
    (getMappedAddressLoop st events).1 ≤ probeTimeoutMs := by
  induction events generalizing st with
  | nil => exact Nat.le_refl _
  | cons q rest ih =>
    obtain ⟨t, e⟩ := q
    by_cases ht : probeTimeoutMs ≤ t
    · simp [getMappedAddressLoop, ht]
    · cases e with
      | complete =>
        simp [getMappedAddressLoop, ht]
        omega
      | candidate c =>
        simp only [getMappedAddressLoop, if_neg ht]
        exact ih (applyCandidate st c)

theorem applyCandidate_not_accepted (st : MappedAddrs) (c : String)
    (h : acceptsCandidate c = false) : applyCandidate st c = st := by
  rw [acceptsCandidate] at h
  rw [applyCandidate]
  by_cases hu : isUdpSrflx c = true
  · rw [hu] at h
    simp only [Bool.true_or, Bool.true_and] at h
    cases hc : candAddr c with
    | none => simp [hu, hc]
    | some a => rw [hc] at h; simp at h
  · by_cases htc : isTcpSrflx c = true
    · rw [htc] at h
      simp only [Bool.or_true, Bool.true_and] at h
      cases hc : candAddr c with
      | none => simp [Bool.eq_false_iff.mpr hu, htc, hc]
      | some a => rw [hc] at h; simp at h
    · simp [Bool.eq_false_iff.mpr hu, Bool.eq_false_iff.mpr htc]

/-- Whether one discovery event would be accepted (records a mapping). -/
def eventAccepts : ProbeEvent → Bool
  | ProbeEvent.candidate c => acceptsCandidate c
  | ProbeEvent.complete => false

theorem getMappedAddressLoop_no_accept (st : MappedAddrs)
    (events : List (Nat × ProbeEvent))
    (h : ∀ q ∈ events, q.1 < probeTimeoutMs → eventAccepts q.2 = false) :
    (getMappedAddressLoop st events).2 = st := by
  induction events generalizing st with
  | nil => rfl
  | cons q rest ih =>
    obtain ⟨t, e⟩ := q
    by_cases ht : probeTimeoutMs ≤ t
    · simp [getMappedAddressLoop, ht]
    · cases e with
      | complete => simp [getMappedAddressLoop, ht]
      | candidate c =>
        have hacc := h (t, ProbeEvent.candidate c)
          (List.mem_cons_self _ _) (Nat.not_le.mp ht)
        rw [eventAccepts] at hacc
        simp only [getMappedAddressLoop, if_neg ht]
        rw [applyCandidate_not_accepted st c hacc]
        exact ih st (fun q hq => h q (List.mem_cons_of_mem _ hq))

/-- Claim C8: the probe resolves no later than its 5000 ms timeout on every
event trace — including traces that never contain the discovery-complete
event — and when no matching externally-mapped candidate is accepted before
the timeout it resolves with the all-null (no mapping / unreachable)
result. -/
theorem C8_timeout_and_null_result (events : List (Nat × ProbeEvent)) :
    (getMappedAddress events).1 ≤ probeTimeoutMs ∧
    ((∀ q ∈ events, q.1 < probeTimeoutMs → eventAccepts q.2 = false) →
      (getMappedAddress events).2 = emptyMappedAddrs) :=
  ⟨getMappedAddressLoop_fst_le emptyMappedAddrs events,
   fun h => getMappedAddressLoop_no_accept emptyMappedAddrs events h⟩

/-- Witness for C8: a trace with one non-matching candidate and no
discovery-complete event resolves by the timeout with the null result (the
candidate at 9000 ms arrives after the 5000 ms timer). -/
theorem C8_timeout_and_null_result_witness :
    (getMappedAddress [(0, ProbeEvent.candidate "foo"),
        (9000, ProbeEvent.candidate candFirst)]).1 ≤ probeTimeoutMs ∧
    (getMappedAddress [(0, ProbeEvent.candidate "foo"),
        (9000, ProbeEvent.candidate candFirst)]).2 = emptyMappedAddrs :=
  ⟨(C8_timeout_and_null_result _).1,
   (C8_timeout_and_null_result [(0, ProbeEvent.candidate "foo"),
      (9000, ProbeEvent.candidate candFirst)]).2 (by decide)⟩

/-! ## Claim C9 -/

/-- A UDP srflx candidate whose mapped IP is the loopback address
127.0.0.2: the code's substring blacklist contains `"127.0.0.1"` but not
the 127/8 range, so this candidate passes as "public". -/
def loopbackCand : String := "candidate:1 1 UDP 99 127.0.0.2 40000 typ srflx"

/-- Counterexample to C9: `detectPublicIP` returns `true` for a trace whose
only observed mapping is the loopback address 127.0.0.2 — a private
(loopback) address under the claim's non-private definition — because the
blacklist checks the literal `"127.0.0.1"` instead of the address ranges. -/
theorem C9_loopback_counterexample :
    detectPublicIP stunServers (fun _ => [ProbeEvent.candidate loopbackCand]) = true ∧
    candAddr loopbackCand = some ⟨"127.0.0.2", 40000⟩ ∧
    specIsPrivateAddr "127.0.0.2" = true := by
  refine ⟨by decide, by decide, by decide⟩

theorem detectPublicIPLoop_true (l : List ProbeEvent)
    (h : detectPublicIPLoop l = true) :
    ∃ c, ProbeEvent.candidate c ∈ l ∧ isUdpSrflx c = true ∧
      isPrivateIPSubstrCheck c = false := by
  induction l with
  | nil => exact absurd h (by decide)
  | cons e rest ih =>
    cases e with
    | complete => exact absurd h (by simp [detectPublicIPLoop])
    | candidate c =>
      by_cases hu : isUdpSrflx c = true
      · rw [detectPublicIPLoop, if_pos hu] at h
        exact ⟨c, List.mem_cons_self _ _, hu, by simpa using h⟩
      · rw [detectPublicIPLoop, if_neg hu] at h
        obtain ⟨c', hm, h1, h2⟩ := ih h
        exact ⟨c', List.mem_cons_of_mem _ hm, h1, h2⟩

/-- C9 amended: `hasPublicIP` is `true` only if a UDP srflx candidate was
observed in the primary (first-configured) server's trace — here
`stun.miwifi.com`, the connectionless probe — whose whole candidate string
passes the code's substring blacklist.  Passing that blacklist is NOT the
claim's "mapped address is non-private": the blacklist misses parts of the
private/loopback ranges (see `C9_loopback_counterexample`). -/
theorem C9_public_flag_source (eventsOf : String → List ProbeEvent)
    (h : detectPublicIP stunServers eventsOf = true) :
    ∃ c, ProbeEvent.candidate c ∈ eventsOf "stun.miwifi.com" ∧
      isUdpSrflx c = true ∧ isPrivateIPSubstrCheck c = false := by
  exact detectPublicIPLoop_true _ h

/-- Witness for C9 amended: a trace carrying a genuinely public mapping
203.0.113.5:40000 on the primary server sets the flag, and the accepted
candidate exists as the theorem states. -/
theorem C9_public_flag_source_witness :
    ∃ c, ProbeEvent.candidate c ∈
        (fun _ => [ProbeEvent.candidate candFirst]) "stun.miwifi.com" ∧
      isUdpSrflx c = true ∧ isPrivateIPSubstrCheck c = false :=
  C9_public_flag_source (fun _ => [ProbeEvent.candidate candFirst]) (by decide)

/-! ## Claim C10 -/

/-- A UDP srflx candidate whose mapped IP 110.242.68.66 is genuinely
public, but whose text contains `"10."` (inside `"110.242..."`). -/
def publicCand : String := "candidate:1 1 UDP 2122260223 110.242.68.66 40000 typ srflx"

/-- Claim C10: the private-address test is a substring check over the whole
candidate string, not a prefix check on the parsed IP: the candidate
carrying the public address 110.242.68.66 matches the blacklist (its text
contains `"10."`), is classified private, and `detectPublicIP` returns
`false` although a public mapping was observed on the primary server. -/
theorem C10_substring_check_false_negative :
    isUdpSrflx publicCand = true ∧
    candAddr publicCand = some ⟨"110.242.68.66", 40000⟩ ∧
    specIsPrivateAddr "110.242.68.66" = false ∧
    isPrivateIPSubstrCheck publicCand = true ∧
    detectPublicIP stunServers (fun _ => [ProbeEvent.candidate publicCand]) = false := by
  refine ⟨by decide, by decide, by decide, by decide, by decide⟩
